import Mathlib

/-!
Verification of `core/internal/selection/selection.go` (package `selection`).

Two layers are embedded:

1. The selector-chain layer (`New` / `Find` / `Selector`).  Go's `append`
   has observable aliasing behaviour: when the receiver's slice has spare
   capacity, `append` writes the new fragment into the shared backing
   array instead of allocating.  To settle the immutability claims we
   embed Go slices faithfully: a slice is a descriptor (array id, length,
   capacity) over a store of backing arrays, and `goAppend` follows the
   runtime's rule for small slices (write in place when `len < cap`,
   otherwise allocate a fresh array of doubled capacity).  All slices
   built by this package start at offset 0, so no offset field is needed.

2. The operation layer (`Count`, `Click`, `Fill`, ...).  The driver and
   element collaborators are capability records whose fields give the
   result of each primitive call; every operation returns its Go result
   (value and/or error string, errors as `Option String` with `none`
   meaning nil) together with the ordered trace of boundary calls it
   issued, so ordering claims (clear-before-value, move-before-click)
   are provable.
-/

namespace Agouti

/-- A Go slice descriptor over the store: backing array id, length, capacity. -/
structure GoSlice where
  arr : Nat
  len : Nat
  cap : Nat
  deriving Repr, DecidableEq

/-- The heap of backing arrays: a fresh-id counter and an association list
from array id to contents (each array is stored at its full capacity,
unwritten cells holding Go's zero value `""`).  Writes shadow by prepending. -/
structure Store where
  next : Nat
  mem : List (Nat × List String)
  deriving Repr

/-- Read the backing array with the given id. -/
def Store.read (st : Store) (i : Nat) : List String :=
  (st.mem.lookup i).getD []

/-- Overwrite the backing array with the given id. -/
def Store.write (st : Store) (i : Nat) (v : List String) : Store :=
  ⟨st.next, (i, v) :: st.mem⟩

/-- Allocate a fresh backing array (at id `st.next`). -/
def Store.alloc (st : Store) (v : List String) : Store :=
  ⟨st.next + 1, (st.next, v) :: st.mem⟩

/-- Go's `append(s, x)` for one element on a slice starting at offset 0:
if `len < cap` the element is written into the shared backing array at
index `len`; otherwise a fresh array of doubled capacity is allocated and
the live prefix is copied (the Go runtime doubles the capacity of small
slices when growing). -/
def goAppend (st : Store) (s : GoSlice) (x : String) : Store × GoSlice :=
  if s.len < s.cap then
    (st.write s.arr ((st.read s.arr).set s.len x), ⟨s.arr, s.len + 1, s.cap⟩)
  else
    (st.alloc ((st.read s.arr).take s.len ++ [x] ++
        List.replicate (2 * s.cap - (s.len + 1)) ("")),
     ⟨st.next, s.len + 1, 2 * s.cap⟩)

/-- `New(driver, selector)`: the chain part only — the composite literal
`[]string{selector}` allocates a backing array of length and capacity 1. -/
def newChain (st : Store) (selector : String) : Store × GoSlice :=
  (st.alloc [selector], ⟨st.next, 1, 1⟩)

/-- `Find(selector)`: the chain part — `append(s.selectors, selector)`
packaged as a new descriptor; the receiver's descriptor is unchanged. -/
def findChain (st : Store) (s : GoSlice) (selector : String) : Store × GoSlice :=
  goAppend st s selector

/-- `Selector()`: `strings.Join(s.selectors, " ")` — the slice observes the
first `len` cells of its backing array. -/
def renderSelector (st : Store) (s : GoSlice) : String :=
  String.intercalate (" ") ((st.read s.arr).take s.len)

/-- Chain `Find` left to right over a list of fragments. -/
def buildChain (st : Store) (s : GoSlice) (fs : List String) : Store × GoSlice :=
  match fs with
  | [] => (st, s)
  | f :: rest =>
    let p := findChain st s f
    buildChain p.1 p.2 rest

/-- The empty heap. -/
def emptyStore : Store := ⟨0, []⟩

/-- Well-formedness of a chain slice observing fragment list `fs`:
its array id is allocated, it is nonempty, its length is within capacity,
its backing array is stored at full capacity, and its observed prefix is
exactly `fs`. -/
def chainInv (st : Store) (s : GoSlice) (fs : List String) : Prop :=
  s.arr < st.next ∧ 1 ≤ s.len ∧ s.len ≤ s.cap ∧
    (st.read s.arr).length = s.cap ∧ (st.read s.arr).take s.len = fs

/-- The chain `New("a")`, used as a concrete scenario. -/
def chA : Store × GoSlice := newChain emptyStore ("a")

/-- `chA.Find("b")`. -/
def chAB : Store × GoSlice := findChain chA.1 chA.2 ("b")

/-- `chAB.Find("c")`: grows the backing array to capacity 4 with length 3. -/
def chABC : Store × GoSlice := findChain chAB.1 chAB.2 ("c")

/-- `chABC.Find("d")`: spare capacity, so `"d"` is written into the shared
backing array in place. -/
def chABCD : Store × GoSlice := findChain chABC.1 chABC.2 ("d")

/-- A second `chABC.Find("e")`: overwrites cell 3 of the same backing array,
which `chABCD` still observes. -/
def chABCE : Store × GoSlice := findChain chABCD.1 chABC.2 ("e")

/-- An offset for `MoveTo`; the code always passes Go `nil`, modelled as
`none` at the call site. -/
structure Point where
  x : Int
  y : Int
  deriving Repr, DecidableEq

/-- A remote element handle (the `webdriver.Element` collaborator): an id
identifying the handle plus the result each primitive call returns.  A
field named after a Go method holds the outcome of invoking that method
(`.error msg` models a non-nil Go error). -/
structure Element where
  id : Nat
  Click : Except String Unit
  Clear : Except String Unit
  Value : String → Except String Unit
  GetText : Except String String
  GetAttribute : String → Except String String
  GetCSS : String → Except String String
  IsSelected : Except String Bool
  IsDisplayed : Except String Bool
  Submit : Except String Unit

/-- The driver boundary (the `driver` interface): resolution of a selector
string to element handles, plus the two driver-level gestures. -/
structure Driver where
  GetElements : String → Except String (List Element)
  DoubleClick : Except String Unit
  MoveTo : Element → Option Point → Except String Unit

/-- One boundary call, recorded in the order the operation issues it. -/
inductive Event where
  | getElements (selector : String)
  | moveTo (id : Nat) (point : Option Point)
  | doubleClick
  | click (id : Nat)
  | clear (id : Nat)
  | setValue (id : Nat) (text : String)
  | getText (id : Nat)
  | getAttribute (id : Nat) (name : String)
  | getCSS (id : Nat) (property : String)
  | isSelected (id : Nat)
  | isDisplayed (id : Nat)
  | submit (id : Nat)
  deriving Repr, DecidableEq

/-- The `selection` struct at the operation layer: the driver reference and
the fragment sequence the selection observes (`s.selectors`). -/
structure selection where
  driver : Driver
  selectors : List String

/-- `Selector()`: `strings.Join(s.selectors, " ")`. -/
def selection.Selector (s : selection) : String :=
  String.intercalate (" ") s.selectors

/-- `getSingleElement()`: resolve the full path; more than one handle is the
count-reporting error, zero handles the not-found error, exactly one is
returned.  The trace records the single resolution call. -/
def selection.getSingleElement (s : selection) : Except String Element × List Event :=
  ((match s.driver.GetElements s.Selector with
    | .error err => .error err
    | .ok [] => .error ("no element found")
    | .ok [element] => .ok element
    | .ok elements =>
        .error ("mutiple elements (" ++ toString elements.length ++ ") were selected")),
   [.getElements s.Selector])

/-- `Count()`: returns `(len(elements), nil)`, or `(0, err)` wrapping a
resolution failure with the path. -/
def selection.Count (s : selection) : (Nat × Option String) × List Event :=
  (match s.driver.GetElements s.Selector with
   | .error err =>
       (0, some ("failed to retrieve elements for selector '" ++ s.Selector ++ "': " ++ err))
   | .ok elements => (elements.length, none),
   [.getElements s.Selector])

/-- `Click()`. -/
def selection.Click (s : selection) : Option String × List Event :=
  match s.getSingleElement with
  | (.error err, events) =>
      (some ("failed to retrieve element with selector '" ++ s.Selector ++ "': " ++ err), events)
  | (.ok element, events) =>
      match element.Click with
      | .error err =>
          (some ("failed to click on selector '" ++ s.Selector ++ "': " ++ err),
           events ++ [.click element.id])
      | .ok _ => (none, events ++ [.click element.id])

/-- `DoubleClick()`: move the pointer to the element (nil offset point),
then the driver-level double-click. -/
def selection.DoubleClick (s : selection) : Option String × List Event :=
  match s.getSingleElement with
  | (.error err, events) =>
      (some ("failed to retrieve element with selector '" ++ s.Selector ++ "': " ++ err), events)
  | (.ok element, events) =>
      match s.driver.MoveTo element none with
      | .error err =>
          (some ("failed to move mouse to selector '" ++ s.Selector ++ "': " ++ err),
           events ++ [.moveTo element.id none])
      | .ok _ =>
          match s.driver.DoubleClick with
          | .error err =>
              (some ("failed to double-click on selector '" ++ s.Selector ++ "': " ++ err),
               events ++ [.moveTo element.id none, .doubleClick])
          | .ok _ => (none, events ++ [.moveTo element.id none, .doubleClick])

/-- `Fill(text)`: clear, then set the value, in that order. -/
def selection.Fill (s : selection) (text : String) : Option String × List Event :=
  match s.getSingleElement with
  | (.error err, events) =>
      (some ("failed to retrieve element with selector '" ++ s.Selector ++ "': " ++ err), events)
  | (.ok element, events) =>
      match element.Clear with
      | .error err =>
          (some ("failed to clear selector '" ++ s.Selector ++ "': " ++ err),
           events ++ [.clear element.id])
      | .ok _ =>
          match element.Value text with
          | .error err =>
              (some ("failed to enter text into selector '" ++ s.Selector ++ "': " ++ err),
               events ++ [.clear element.id, .setValue element.id text])
          | .ok _ => (none, events ++ [.clear element.id, .setValue element.id text])

/-- `setChecked(checked)`: reject non-checkboxes, then click only when the
current selected-state differs from the requested one. -/
def selection.setChecked (s : selection) (checked : Bool) : Option String × List Event :=
  match s.getSingleElement with
  | (.error err, events) =>
      (some ("failed to retrieve element with selector '" ++ s.Selector ++ "': " ++ err), events)
  | (.ok element, events) =>
      match element.GetAttribute ("type") with
      | .error err =>
          (some ("failed to retrieve type of selector '" ++ s.Selector ++ "': " ++ err),
           events ++ [.getAttribute element.id ("type")])
      | .ok elementType =>
          if elementType ≠ "checkbox" then
            (some ("selector '" ++ s.Selector ++ "' does not refer to a checkbox"),
             events ++ [.getAttribute element.id ("type")])
          else
            match element.IsSelected with
            | .error err =>
                (some ("failed to retrieve state of selector '" ++ s.Selector ++ "': " ++ err),
                 events ++ [.getAttribute element.id ("type"), .isSelected element.id])
            | .ok selected =>
                if selected ≠ checked then
                  match element.Click with
                  | .error err =>
                      (some ("failed to click selector '" ++ s.Selector ++ "': " ++ err),
                       events ++ [.getAttribute element.id ("type"), .isSelected element.id,
                         .click element.id])
                  | .ok _ =>
                      (none,
                       events ++ [.getAttribute element.id ("type"), .isSelected element.id,
                         .click element.id])
                else
                  (none, events ++ [.getAttribute element.id ("type"), .isSelected element.id])

/-- `Check()`. -/
def selection.Check (s : selection) : Option String × List Event :=
  s.setChecked true

/-- `Uncheck()`. -/
def selection.Uncheck (s : selection) : Option String × List Event :=
  s.setChecked false

/-- `Text()`: Go returns `("", err)` on failure. -/
def selection.Text (s : selection) : (String × Option String) × List Event :=
  match s.getSingleElement with
  | (.error err, events) =>
      (("", some ("failed to retrieve element with selector '" ++ s.Selector ++ "': " ++ err)),
       events)
  | (.ok element, events) =>
      match element.GetText with
      | .error err =>
          (("", some ("failed to retrieve text for selector '" ++ s.Selector ++ "': " ++ err)),
           events ++ [.getText element.id])
      | .ok text => ((text, none), events ++ [.getText element.id])

/-- `Attribute(attribute)`. -/
def selection.Attribute (s : selection) (attr : String) :
    (String × Option String) × List Event :=
  match s.getSingleElement with
  | (.error err, events) =>
      (("", some ("failed to retrieve element with selector '" ++ s.Selector ++ "': " ++ err)),
       events)
  | (.ok element, events) =>
      match element.GetAttribute attr with
      | .error err =>
          (("", some ("failed to retrieve attribute value for selector '" ++ s.Selector ++
             "': " ++ err)),
           events ++ [.getAttribute element.id attr])
      | .ok value => ((value, none), events ++ [.getAttribute element.id attr])

/-- `CSS(property)`. -/
def selection.CSS (s : selection) (property : String) :
    (String × Option String) × List Event :=
  match s.getSingleElement with
  | (.error err, events) =>
      (("", some ("failed to retrieve element with selector '" ++ s.Selector ++ "': " ++ err)),
       events)
  | (.ok element, events) =>
      match element.GetCSS property with
      | .error err =>
          (("", some ("failed to retrieve CSS property for selector '" ++ s.Selector ++
             "': " ++ err)),
           events ++ [.getCSS element.id property])
      | .ok value => ((value, none), events ++ [.getCSS element.id property])

/-- `Selected()`: Go returns `(false, err)` on failure. -/
def selection.Selected (s : selection) : (Bool × Option String) × List Event :=
  match s.getSingleElement with
  | (.error err, events) =>
      ((false, some ("failed to retrieve element with selector '" ++ s.Selector ++ "': " ++ err)),
       events)
  | (.ok element, events) =>
      match element.IsSelected with
      | .error err =>
          ((false, some ("failed to determine whether selector '" ++ s.Selector ++
             "' is selected: " ++ err)),
           events ++ [.isSelected element.id])
      | .ok selected => ((selected, none), events ++ [.isSelected element.id])

/-- `Visible()`: Go returns `(false, err)` on failure. -/
def selection.Visible (s : selection) : (Bool × Option String) × List Event :=
  match s.getSingleElement with
  | (.error err, events) =>
      ((false, some ("failed to retrieve element with selector '" ++ s.Selector ++ "': " ++ err)),
       events)
  | (.ok element, events) =>
      match element.IsDisplayed with
      | .error err =>
          ((false, some ("failed to determine whether selector '" ++ s.Selector ++
             "' is visible: " ++ err)),
           events ++ [.isDisplayed element.id])
      | .ok visible => ((visible, none), events ++ [.isDisplayed element.id])

/-- The `for _, element := range elements` loop body of `Select`: read each
option's text in order; click the first whose text equals `text`; fall
through to the not-found error after the last. -/
def selectLoop (s : selection) (text : String) : List Element → Option String × List Event
  | [] =>
      (some ("no options with text \"" ++ text ++ "\" found for selector '" ++
         s.Selector ++ "'"), [])
  | element :: rest =>
      match element.GetText with
      | .error err =>
          (some ("failed to retrieve option text for selector '" ++ s.Selector ++ "': " ++ err),
           [.getText element.id])
      | .ok elementText =>
          if elementText = text then
            match element.Click with
            | .error err =>
                (some ("failed to click on option with text \"" ++ elementText ++
                   "\" for selector '" ++ s.Selector ++ "': " ++ err),
                 [.getText element.id, .click element.id])
            | .ok _ => (none, [.getText element.id, .click element.id])
          else
            ((selectLoop s text rest).1, .getText element.id :: (selectLoop s text rest).2)

/-- `Select(text)`: resolve `Selector() + " option"` (no cardinality check)
and scan the options in order. -/
def selection.Select (s : selection) (text : String) : Option String × List Event :=
  match s.driver.GetElements (s.Selector ++ " option") with
  | .error err =>
      (some ("failed to retrieve options for selector '" ++ s.Selector ++ "': " ++ err),
       [.getElements (s.Selector ++ " option")])
  | .ok elements =>
      ((selectLoop s text elements).1,
       .getElements (s.Selector ++ " option") :: (selectLoop s text elements).2)

/-- `Submit()`. -/
def selection.Submit (s : selection) : Option String × List Event :=
  match s.getSingleElement with
  | (.error err, events) =>
      (some ("failed to retrieve element with selector '" ++ s.Selector ++ "': " ++ err), events)
  | (.ok element, events) =>
      match element.Submit with
      | .error err =>
          (some ("failed to submit selector '" ++ s.Selector ++ "': " ++ err),
           events ++ [.submit element.id])
      | .ok _ => (none, events ++ [.submit element.id])

/-- The number of element-click calls in a trace (used to state "performs
no click" / "performs exactly one click"). -/
def clickCount (events : List Event) : Nat :=
  (events.filter fun e =>
    match e with
    | .click _ => true
    | _ => false).length

/-- `msg` contains `path` verbatim as a substring. -/
def containsPath (path msg : String) : Prop :=
  ∃ p q, msg = p ++ (path ++ q)

/-- A unit-returning operation failed at the resolution step with the given
cause, wrapped with the path, having issued only the resolution call. -/
def failsRetrieve (s : selection) (cause : String) (r : Option String × List Event) : Prop :=
  r = (some ("failed to retrieve element with selector '" ++ s.Selector ++ "': " ++ cause),
       [.getElements s.Selector])

/-- A value-returning operation failed at the resolution step with the given
cause, returning the zero value `z` of its result type. -/
def failsRetrieveVal {α : Type} (s : selection) (cause : String) (z : α)
    (r : (α × Option String) × List Event) : Prop :=
  r = ((z, some ("failed to retrieve element with selector '" ++ s.Selector ++ "': " ++ cause)),
       [.getElements s.Selector])

/-- A concrete healthy element handle. -/
def elemA : Element :=
  ⟨0, .ok (), .ok (), fun _ => .ok (), .ok ("A"), fun _ => .ok ("checkbox"),
   fun _ => .ok ("red"), .ok false, .ok true, .ok ()⟩

/-- A second concrete element handle. -/
def elemB : Element :=
  ⟨1, .ok (), .ok (), fun _ => .ok (), .ok ("B"), fun _ => .ok ("checkbox"),
   fun _ => .ok ("red"), .ok false, .ok true, .ok ()⟩

/-- A driver resolving every selector to no elements. -/
def selZero : selection := ⟨⟨fun _ => .ok [], .ok (), fun _ _ => .ok ()⟩, ["root"]⟩

/-- A driver resolving every selector to two elements. -/
def selTwo : selection := ⟨⟨fun _ => .ok [elemA, elemB], .ok (), fun _ _ => .ok ()⟩, ["root"]⟩

/-- A driver resolving every selector to exactly one element. -/
def selOne : selection := ⟨⟨fun _ => .ok [elemA], .ok (), fun _ _ => .ok ()⟩, ["root"]⟩

/-- An element whose `type` attribute is `"text"`, not `"checkbox"`. -/
def elemText : Element :=
  ⟨2, .ok (), .ok (), fun _ => .ok (), .ok ("T"), fun _ => .ok ("text"),
   fun _ => .ok ("red"), .ok false, .ok true, .ok ()⟩

/-- A selection resolving to the single non-checkbox element. -/
def selText : selection := ⟨⟨fun _ => .ok [elemText], .ok (), fun _ _ => .ok ()⟩, ["root"]⟩

/-- An element whose `Clear` primitive fails. -/
def elemClearFail : Element :=
  ⟨3, .ok (), .error ("clear broke"), fun _ => .ok (), .ok ("T"),
   fun _ => .ok ("checkbox"), fun _ => .ok ("red"), .ok false, .ok true, .ok ()⟩

/-- A selection resolving to the element whose `Clear` fails. -/
def selClearFail : selection :=
  ⟨⟨fun _ => .ok [elemClearFail], .ok (), fun _ _ => .ok ()⟩, ["root"]⟩

/-- A driver whose `MoveTo` gesture fails. -/
def selMoveFail : selection :=
  ⟨⟨fun _ => .ok [elemA], .ok (), fun _ _ => .error ("move broke")⟩, ["root"]⟩

/-- A driver whose resolution fails. -/
def selErr : selection :=
  ⟨⟨fun _ => .error ("transport broke"), .ok (), fun _ _ => .ok ()⟩, ["root"]⟩

/-- An option element with text `"A"`. -/
def optA : Element :=
  ⟨10, .ok (), .ok (), fun _ => .ok (), .ok ("A"), fun _ => .ok (""),
   fun _ => .ok (""), .ok false, .ok true, .ok ()⟩

/-- The first option element with text `"B"`. -/
def optB1 : Element :=
  ⟨11, .ok (), .ok (), fun _ => .ok (), .ok ("B"), fun _ => .ok (""),
   fun _ => .ok (""), .ok false, .ok true, .ok ()⟩

/-- The second option element with text `"B"`. -/
def optB2 : Element :=
  ⟨12, .ok (), .ok (), fun _ => .ok (), .ok ("B"), fun _ => .ok (""),
   fun _ => .ok (""), .ok false, .ok true, .ok ()⟩

/-- A selection whose driver resolves every selector to the three options
with texts `["A", "B", "B"]`. -/
def selOpts : selection :=
  ⟨⟨fun _ => .ok [optA, optB1, optB2], .ok (), fun _ _ => .ok ()⟩, ["root"]⟩

section ChainLemmas

theorem take_set_succ (l : List String) (n : Nat) (x : String) (h : n < l.length) :
    (l.set n x).take (n + 1) = l.take n ++ [x] := by
  rw [List.set_eq_take_append_cons_drop, if_pos h]
  rw [List.take_append_eq_append_take]
  have hlt : (List.take n l).length = n := List.length_take_of_le (Nat.le_of_lt h)
  simp [hlt]

theorem Store.read_write_self (st : Store) (i : Nat) (v : List String) :
    (st.write i v).read i = v := by
  simp [Store.read, Store.write, List.lookup]

theorem Store.read_alloc_self (st : Store) (v : List String) :
    (st.alloc v).read st.next = v := by
  simp [Store.read, Store.alloc, List.lookup]

theorem findChain_inv (st : Store) (s : GoSlice) (fs : List String) (f : String)
    (h : chainInv st s fs) :
    chainInv (findChain st s f).1 (findChain st s f).2 (fs ++ [f]) := by
  obtain ⟨harr, hone, hlen, hsz, htake⟩ := h
  by_cases hc : s.len < s.cap
  · have hrd : s.len < (st.read s.arr).length := by rw [hsz]; exact hc
    simp only [findChain, goAppend, if_pos hc]
    refine ⟨harr, Nat.le_add_left 1 s.len, hc, ?_, ?_⟩
    · rw [Store.read_write_self]; simpa using hsz
    · rw [Store.read_write_self, take_set_succ _ _ _ hrd, htake]
  · have hcap : s.len = s.cap := Nat.le_antisymm hlen (Nat.not_lt.mp hc)
    have hcap1 : 1 ≤ s.cap := hcap ▸ hone
    have hle : s.len + 1 ≤ 2 * s.cap := by omega
    have htklen : ((st.read s.arr).take s.len).length = s.len :=
      List.length_take_of_le (hsz ▸ hlen)
    simp only [findChain, goAppend, if_neg hc]
    have hnext : (st.alloc ((st.read s.arr).take s.len ++ [f] ++
        List.replicate (2 * s.cap - (s.len + 1)) (""))).next = st.next + 1 := rfl
    refine ⟨?_, Nat.le_add_left 1 s.len, hle, ?_, ?_⟩
    · rw [hnext]; exact Nat.lt_succ_self st.next
    · rw [Store.read_alloc_self]
      simp [htklen]; omega
    · rw [Store.read_alloc_self]
      have hlen2 : ((st.read s.arr).take s.len ++ [f]).length = s.len + 1 := by
        simp [htklen]
      rw [List.take_left' hlen2, htake]

theorem buildChain_inv (fs : List String) :
    ∀ (st : Store) (s : GoSlice) (g : List String), chainInv st s g →
      chainInv (buildChain st s fs).1 (buildChain st s fs).2 (g ++ fs) := by
  induction fs with
  | nil => intro st s g h; simpa [buildChain] using h
  | cons f rest ih =>
    intro st s g h
    have h1 := findChain_inv st s g f h
    have h2 := ih (findChain st s f).1 (findChain st s f).2 (g ++ [f]) h1
    simpa [buildChain] using h2

theorem newChain_inv (st : Store) (f : String) :
    chainInv (newChain st f).1 (newChain st f).2 [f] := by
  refine ⟨Nat.lt_succ_self st.next, Nat.le_refl 1, Nat.le_refl 1, ?_, ?_⟩ <;>
    simp [newChain, Store.alloc, Store.read, List.lookup]

end ChainLemmas

section OpLemmas

theorem getSingleElement_err (s : selection) (err : String)
    (h : s.driver.GetElements s.Selector = .error err) :
    s.getSingleElement = (.error err, [.getElements s.Selector]) := by
  simp [selection.getSingleElement, h]

theorem getSingleElement_nil (s : selection)
    (h : s.driver.GetElements s.Selector = .ok []) :
    s.getSingleElement = (.error ("no element found"), [.getElements s.Selector]) := by
  simp [selection.getSingleElement, h]

theorem getSingleElement_single (s : selection) (e : Element)
    (h : s.driver.GetElements s.Selector = .ok [e]) :
    s.getSingleElement = (.ok e, [.getElements s.Selector]) := by
  simp [selection.getSingleElement, h]

theorem getSingleElement_multi (s : selection) (e1 e2 : Element) (rest : List Element)
    (h : s.driver.GetElements s.Selector = .ok (e1 :: e2 :: rest)) :
    s.getSingleElement =
      (.error ("mutiple elements (" ++ toString (rest.length + 2) ++ ") were selected"),
       [.getElements s.Selector]) := by
  simp [selection.getSingleElement, h]

theorem getSingleElement_two (s : selection) (l : List Element)
    (h : s.driver.GetElements s.Selector = .ok l) (h2 : 2 ≤ l.length) :
    s.getSingleElement =
      (.error ("mutiple elements (" ++ toString l.length ++ ") were selected"),
       [.getElements s.Selector]) := by
  cases l with
  | nil => simp at h2
  | cons e1 t =>
    cases t with
    | nil => simp at h2
    | cons e2 rest => simp [selection.getSingleElement, h]

theorem ops_fail_retrieve (s : selection) (cause : String)
    (h : s.getSingleElement = (.error cause, [.getElements s.Selector])) :
    failsRetrieve s cause s.Click ∧
    failsRetrieve s cause s.DoubleClick ∧
    (∀ text, failsRetrieve s cause (s.Fill text)) ∧
    failsRetrieveVal s cause ("") s.Text ∧
    (∀ a, failsRetrieveVal s cause ("") (s.Attribute a)) ∧
    (∀ p, failsRetrieveVal s cause ("") (s.CSS p)) ∧
    failsRetrieve s cause s.Check ∧
    failsRetrieve s cause s.Uncheck ∧
    failsRetrieveVal s cause false s.Selected ∧
    failsRetrieveVal s cause false s.Visible ∧
    failsRetrieve s cause s.Submit := by
  refine ⟨?_, ?_, ?_, ?_, ?_, ?_, ?_, ?_, ?_, ?_, ?_⟩ <;> intros <;>
    simp [failsRetrieve, failsRetrieveVal, selection.Click, selection.DoubleClick,
      selection.Fill, selection.Text, selection.Attribute, selection.CSS,
      selection.Check, selection.Uncheck, selection.setChecked, selection.Selected,
      selection.Visible, selection.Submit, h]

theorem containsPath_wrap2 (sel a b : String) : containsPath sel (a ++ sel ++ b) :=
  ⟨a, b, by simp [String.append_assoc]⟩

theorem containsPath_wrap3 (sel a b c : String) : containsPath sel (a ++ sel ++ b ++ c) :=
  ⟨a, b ++ c, by simp [String.append_assoc]⟩

theorem getSingleElement_shape (s : selection) :
    (∃ e, s.getSingleElement = (.ok e, [.getElements s.Selector])) ∨
    (∃ cause, s.getSingleElement = (.error cause, [.getElements s.Selector])) := by
  cases hge : s.driver.GetElements s.Selector with
  | error err => exact .inr ⟨err, getSingleElement_err s err hge⟩
  | ok l =>
    rcases l with _ | ⟨e1, _ | ⟨e2, rest⟩⟩
    · exact .inr ⟨_, getSingleElement_nil s hge⟩
    · exact .inl ⟨e1, getSingleElement_single s e1 hge⟩
    · exact .inr ⟨_, getSingleElement_multi s e1 e2 rest hge⟩

theorem selectLoop_no_match (s : selection) (text : String) (opts : List Element)
    (h : ∀ e ∈ opts, ∃ t, e.GetText = .ok t ∧ t ≠ text) :
    selectLoop s text opts =
      (some ("no options with text \"" ++ text ++ "\" found for selector '" ++
         s.Selector ++ "'"),
       opts.map fun e => .getText e.id) := by
  induction opts with
  | nil => rfl
  | cons e rest ih =>
    obtain ⟨t, hget, hne⟩ := h e (List.mem_cons_self e rest)
    have hrest := ih fun x hx => h x (List.mem_cons_of_mem e hx)
    simp only [selectLoop, hget, if_neg hne, hrest]
    rfl

theorem selectLoop_first_match (s : selection) (text : String) (pre : List Element)
    (m : Element) (post : List Element)
    (hpre : ∀ e ∈ pre, ∃ t, e.GetText = .ok t ∧ t ≠ text)
    (hm : m.GetText = .ok text) (hc : m.Click = .ok ()) :
    selectLoop s text (pre ++ m :: post) =
      (none, (pre.map fun e => .getText e.id) ++ [.getText m.id, .click m.id]) := by
  induction pre with
  | nil =>
    simp [selectLoop, hm, hc]
  | cons e rest ih =>
    obtain ⟨t, hget, hne⟩ := hpre e (List.mem_cons_self e rest)
    have hrest := ih fun x hx => hpre x (List.mem_cons_of_mem e hx)
    simp [selectLoop, hget, hne, hrest]

theorem selectLoop_err_contains (s : selection) (text : String) (opts : List Element) :
    ∀ msg tr, selectLoop s text opts = (some msg, tr) → containsPath s.Selector msg := by
  induction opts with
  | nil =>
    intro msg tr heq
    simp only [selectLoop, Prod.mk.injEq, Option.some.injEq] at heq
    exact heq.1 ▸ containsPath_wrap2 _ _ _
  | cons e rest ih =>
    intro msg tr heq
    simp only [selectLoop] at heq
    cases hg : e.GetText with
    | error err =>
      simp only [hg, Prod.mk.injEq, Option.some.injEq] at heq
      exact heq.1 ▸ containsPath_wrap3 _ _ _ _
    | ok t =>
      simp only [hg] at heq
      by_cases ht : t = text
      · simp only [if_pos ht] at heq
        cases hc : e.Click with
        | error err =>
          simp only [hc, Prod.mk.injEq, Option.some.injEq] at heq
          exact heq.1 ▸ containsPath_wrap3 _ _ _ _
        | ok u =>
          simp only [hc, Prod.mk.injEq] at heq
          exact absurd heq.1 (by simp)
      · simp only [if_neg ht, Prod.mk.injEq] at heq
        exact ih msg (selectLoop s text rest).2 (Prod.ext heq.1 rfl)

theorem setChecked_err_contains (s : selection) (checked : Bool) :
    ∀ msg tr, s.setChecked checked = (some msg, tr) → containsPath s.Selector msg := by
  intro msg tr heq
  rcases getSingleElement_shape s with ⟨e, hs⟩ | ⟨cause, hs⟩
  · simp only [selection.setChecked, hs] at heq
    cases hat : e.GetAttribute ("type") with
    | error err =>
      simp only [hat, Prod.mk.injEq, Option.some.injEq] at heq
      exact heq.1 ▸ containsPath_wrap3 _ _ _ _
    | ok t =>
      simp only [hat] at heq
      by_cases ht : t ≠ "checkbox"
      · simp only [if_pos ht, Prod.mk.injEq, Option.some.injEq] at heq
        exact heq.1 ▸ containsPath_wrap2 _ _ _
      · simp only [if_neg ht] at heq
        cases his : e.IsSelected with
        | error err =>
          simp only [his, Prod.mk.injEq, Option.some.injEq] at heq
          exact heq.1 ▸ containsPath_wrap3 _ _ _ _
        | ok b =>
          simp only [his] at heq
          by_cases hb : b ≠ checked
          · simp only [if_pos hb] at heq
            cases hc : e.Click with
            | error err =>
              simp only [hc, Prod.mk.injEq, Option.some.injEq] at heq
              exact heq.1 ▸ containsPath_wrap3 _ _ _ _
            | ok u =>
              simp only [hc, Prod.mk.injEq] at heq
              exact absurd heq.1 (by simp)
          · simp only [if_neg hb, Prod.mk.injEq] at heq
            exact absurd heq.1 (by simp)
  · simp only [selection.setChecked, hs, Prod.mk.injEq, Option.some.injEq] at heq
    exact heq.1 ▸ containsPath_wrap3 _ _ _ _

end OpLemmas

/-- C1: every single-element operation fails with the not-found condition on
zero resolved handles, fails with the count-reporting multiple-elements
condition on two or more handles, and on exactly one handle proceeds with
that handle (its behaviour is the continuation driven by that handle's
primitives). -/
theorem C1_cardinality_policy (s : selection) :
    (s.driver.GetElements s.Selector = .ok [] →
      failsRetrieve s ("no element found") s.Click ∧
      failsRetrieve s ("no element found") s.DoubleClick ∧
      (∀ text, failsRetrieve s ("no element found") (s.Fill text)) ∧
      failsRetrieveVal s ("no element found") ("") s.Text ∧
      (∀ a, failsRetrieveVal s ("no element found") ("") (s.Attribute a)) ∧
      (∀ p, failsRetrieveVal s ("no element found") ("") (s.CSS p)) ∧
      failsRetrieve s ("no element found") s.Check ∧
      failsRetrieve s ("no element found") s.Uncheck ∧
      failsRetrieveVal s ("no element found") false s.Selected ∧
      failsRetrieveVal s ("no element found") false s.Visible ∧
      failsRetrieve s ("no element found") s.Submit) ∧
    (∀ l, s.driver.GetElements s.Selector = .ok l → 2 ≤ l.length →
      failsRetrieve s ("mutiple elements (" ++ toString l.length ++ ") were selected") s.Click ∧
      failsRetrieve s ("mutiple elements (" ++ toString l.length ++ ") were selected")
        s.DoubleClick ∧
      (∀ text, failsRetrieve s ("mutiple elements (" ++ toString l.length ++ ") were selected")
        (s.Fill text)) ∧
      failsRetrieveVal s ("mutiple elements (" ++ toString l.length ++ ") were selected") ("")
        s.Text ∧
      (∀ a, failsRetrieveVal s ("mutiple elements (" ++ toString l.length ++ ") were selected")
        ("") (s.Attribute a)) ∧
      (∀ p, failsRetrieveVal s ("mutiple elements (" ++ toString l.length ++ ") were selected")
        ("") (s.CSS p)) ∧
      failsRetrieve s ("mutiple elements (" ++ toString l.length ++ ") were selected") s.Check ∧
      failsRetrieve s ("mutiple elements (" ++ toString l.length ++ ") were selected")
        s.Uncheck ∧
      failsRetrieveVal s ("mutiple elements (" ++ toString l.length ++ ") were selected") false
        s.Selected ∧
      failsRetrieveVal s ("mutiple elements (" ++ toString l.length ++ ") were selected") false
        s.Visible ∧
      failsRetrieve s ("mutiple elements (" ++ toString l.length ++ ") were selected")
        s.Submit) ∧
    (∀ e, s.driver.GetElements s.Selector = .ok [e] →
      s.getSingleElement = (.ok e, [.getElements s.Selector]) ∧
      s.Click = ((match e.Click with
        | .error err => some ("failed to click on selector '" ++ s.Selector ++ "': " ++ err)
        | .ok _ => none),
        [.getElements s.Selector, .click e.id]) ∧
      s.DoubleClick = (match s.driver.MoveTo e none with
        | .error err =>
            (some ("failed to move mouse to selector '" ++ s.Selector ++ "': " ++ err),
             [.getElements s.Selector, .moveTo e.id none])
        | .ok _ =>
            match s.driver.DoubleClick with
            | .error err =>
                (some ("failed to double-click on selector '" ++ s.Selector ++ "': " ++ err),
                 [.getElements s.Selector, .moveTo e.id none, .doubleClick])
            | .ok _ => (none, [.getElements s.Selector, .moveTo e.id none, .doubleClick])) ∧
      (∀ text, s.Fill text = (match e.Clear with
        | .error err =>
            (some ("failed to clear selector '" ++ s.Selector ++ "': " ++ err),
             [.getElements s.Selector, .clear e.id])
        | .ok _ =>
            match e.Value text with
            | .error err =>
                (some ("failed to enter text into selector '" ++ s.Selector ++ "': " ++ err),
                 [.getElements s.Selector, .clear e.id, .setValue e.id text])
            | .ok _ => (none, [.getElements s.Selector, .clear e.id, .setValue e.id text]))) ∧
      s.Text = (match e.GetText with
        | .error err =>
            (("", some ("failed to retrieve text for selector '" ++ s.Selector ++ "': " ++ err)),
             [.getElements s.Selector, .getText e.id])
        | .ok text => ((text, none), [.getElements s.Selector, .getText e.id])) ∧
      (∀ a, s.Attribute a = (match e.GetAttribute a with
        | .error err =>
            (("", some ("failed to retrieve attribute value for selector '" ++ s.Selector ++
               "': " ++ err)),
             [.getElements s.Selector, .getAttribute e.id a])
        | .ok value => ((value, none), [.getElements s.Selector, .getAttribute e.id a]))) ∧
      (∀ p, s.CSS p = (match e.GetCSS p with
        | .error err =>
            (("", some ("failed to retrieve CSS property for selector '" ++ s.Selector ++
               "': " ++ err)),
             [.getElements s.Selector, .getCSS e.id p])
        | .ok value => ((value, none), [.getElements s.Selector, .getCSS e.id p]))) ∧
      s.Check = s.setChecked true ∧
      s.Uncheck = s.setChecked false ∧
      (∀ checked, s.setChecked checked = (match e.GetAttribute ("type") with
        | .error err =>
            (some ("failed to retrieve type of selector '" ++ s.Selector ++ "': " ++ err),
             [.getElements s.Selector, .getAttribute e.id ("type")])
        | .ok elementType =>
            if elementType ≠ "checkbox" then
              (some ("selector '" ++ s.Selector ++ "' does not refer to a checkbox"),
               [.getElements s.Selector, .getAttribute e.id ("type")])
            else
              match e.IsSelected with
              | .error err =>
                  (some ("failed to retrieve state of selector '" ++ s.Selector ++ "': " ++ err),
                   [.getElements s.Selector, .getAttribute e.id ("type"), .isSelected e.id])
              | .ok selected =>
                  if selected ≠ checked then
                    match e.Click with
                    | .error err =>
                        (some ("failed to click selector '" ++ s.Selector ++ "': " ++ err),
                         [.getElements s.Selector, .getAttribute e.id ("type"),
                           .isSelected e.id, .click e.id])
                    | .ok _ =>
                        (none, [.getElements s.Selector, .getAttribute e.id ("type"),
                          .isSelected e.id, .click e.id])
                  else
                    (none, [.getElements s.Selector, .getAttribute e.id ("type"),
                      .isSelected e.id]))) ∧
      s.Selected = (match e.IsSelected with
        | .error err =>
            ((false, some ("failed to determine whether selector '" ++ s.Selector ++
               "' is selected: " ++ err)),
             [.getElements s.Selector, .isSelected e.id])
        | .ok selected => ((selected, none), [.getElements s.Selector, .isSelected e.id])) ∧
      s.Visible = (match e.IsDisplayed with
        | .error err =>
            ((false, some ("failed to determine whether selector '" ++ s.Selector ++
               "' is visible: " ++ err)),
             [.getElements s.Selector, .isDisplayed e.id])
        | .ok visible => ((visible, none), [.getElements s.Selector, .isDisplayed e.id])) ∧
      s.Submit = ((match e.Submit with
        | .error err => some ("failed to submit selector '" ++ s.Selector ++ "': " ++ err)
        | .ok _ => none),
        [.getElements s.Selector, .submit e.id])) := by
  refine ⟨?_, ?_, ?_⟩
  · intro h
    exact ops_fail_retrieve s _ (getSingleElement_nil s h)
  · intro l h h2
    exact ops_fail_retrieve s _ (getSingleElement_two s l h h2)
  · intro e h
    have hs := getSingleElement_single s e h
    refine ⟨hs, ?_, ?_, ?_, ?_, ?_, ?_, rfl, rfl, ?_, ?_, ?_, ?_⟩
    · simp only [selection.Click, hs]
      cases e.Click <;> rfl
    · simp only [selection.DoubleClick, hs]
      cases s.driver.MoveTo e none <;> rfl
    · intro text
      simp only [selection.Fill, hs]
      cases e.Clear <;> rfl
    · simp only [selection.Text, hs]
      cases e.GetText <;> rfl
    · intro a
      simp only [selection.Attribute, hs]
      cases e.GetAttribute a <;> rfl
    · intro p
      simp only [selection.CSS, hs]
      cases e.GetCSS p <;> rfl
    · intro checked
      simp only [selection.setChecked, hs]
      cases e.GetAttribute ("type") <;> rfl
    · simp only [selection.Selected, hs]
      cases e.IsSelected <;> rfl
    · simp only [selection.Visible, hs]
      cases e.IsDisplayed <;> rfl
    · simp only [selection.Submit, hs]
      cases e.Submit <;> rfl

/-- C2: the claim fails on the code.  `Find` builds the new fragment
sequence with Go `append`; after `s3 := New("a").Find("b").Find("c")` the
backing array has capacity 4 and length 3, so `s4 := s3.Find("d")` writes
`"d"` into the shared backing array in place, and a second
`s3.Find("e")` overwrites that cell: `s4`'s rendered path observably
changes from `"a b c d"` to `"a b c e"`, contradicting the claimed
immutability of previously constructed Selections. -/
theorem C2_find_append_aliasing_mutates_sibling :
    renderSelector chABCD.1 chABCD.2 = "a b c d" ∧
    renderSelector chABCE.1 chABCD.2 = "a b c e" ∧
    "a b c d" ≠ "a b c e" := by
  refine ⟨rfl, rfl, ?_⟩
  decide

/-- C3: a Selection built by `New` with `f1` followed by chained `Find`
calls with the remaining fragments renders, via `Selector()`, the
fragments joined by single spaces. -/
theorem C3_selector_renders_joined_fragments (f1 : String) (fs : List String) :
    renderSelector (buildChain (newChain emptyStore f1).1 (newChain emptyStore f1).2 fs).1
      (buildChain (newChain emptyStore f1).1 (newChain emptyStore f1).2 fs).2 =
    String.intercalate (" ") (f1 :: fs) := by
  obtain ⟨-, -, -, -, htake⟩ :=
    buildChain_inv fs (newChain emptyStore f1).1 (newChain emptyStore f1).2 [f1]
      (newChain_inv emptyStore f1)
  rw [renderSelector, htake]
  rfl

/-- C1 witness: concrete drivers resolving to zero, two and one element. -/
theorem C1_cardinality_policy_witness :
    selZero.driver.GetElements selZero.Selector = .ok [] ∧
    failsRetrieve selZero ("no element found") selZero.Click ∧
    selTwo.driver.GetElements selTwo.Selector = .ok [elemA, elemB] ∧
    failsRetrieve selTwo ("mutiple elements (" ++ toString (2 : Nat) ++ ") were selected")
      selTwo.Click ∧
    selOne.driver.GetElements selOne.Selector = .ok [elemA] ∧
    selOne.getSingleElement = (.ok elemA, [.getElements selOne.Selector]) :=
  ⟨rfl, ((C1_cardinality_policy selZero).1 rfl).1,
   rfl, (((C1_cardinality_policy selTwo).2.1 [elemA, elemB] rfl (Nat.le_refl 2)).1),
   rfl, (((C1_cardinality_policy selOne).2.2 elemA rfl).1)⟩

/-- C4: after resolving exactly one element, `Check`/`Uncheck` fail with the
precondition condition naming the path (and click nothing) when the `type`
attribute is not exactly "checkbox"; click nothing and succeed when the
selected-state already equals the target; and click exactly once when it
differs. -/
theorem C4_check_uncheck_toggle_policy (s : selection) (e : Element) (target : Bool)
    (h : s.driver.GetElements s.Selector = .ok [e]) :
    s.Check = s.setChecked true ∧
    s.Uncheck = s.setChecked false ∧
    (∀ t, e.GetAttribute ("type") = .ok t → t ≠ "checkbox" →
      s.setChecked target =
        (some ("selector '" ++ s.Selector ++ "' does not refer to a checkbox"),
         [.getElements s.Selector, .getAttribute e.id ("type")]) ∧
      clickCount (s.setChecked target).2 = 0) ∧
    (e.GetAttribute ("type") = .ok ("checkbox") →
      ∀ b, e.IsSelected = .ok b →
        (b = target →
          s.setChecked target =
            (none, [.getElements s.Selector, .getAttribute e.id ("type"), .isSelected e.id]) ∧
          clickCount (s.setChecked target).2 = 0) ∧
        (b ≠ target →
          (s.setChecked target).2 =
            [.getElements s.Selector, .getAttribute e.id ("type"), .isSelected e.id,
             .click e.id] ∧
          clickCount (s.setChecked target).2 = 1)) := by
  have hs := getSingleElement_single s e h
  refine ⟨rfl, rfl, ?_, ?_⟩
  · intro t hat ht
    have hmain : s.setChecked target =
        (some ("selector '" ++ s.Selector ++ "' does not refer to a checkbox"),
         [.getElements s.Selector, .getAttribute e.id ("type")]) := by
      simp only [selection.setChecked, hs, hat, if_pos ht]
      rfl
    exact ⟨hmain, by rw [hmain]; rfl⟩
  · intro hat b hb
    constructor
    · intro hbt
      subst hbt
      have hmain : s.setChecked b =
          (none, [.getElements s.Selector, .getAttribute e.id ("type"), .isSelected e.id]) := by
        simp [selection.setChecked, hs, hat, hb]
      exact ⟨hmain, by rw [hmain]; rfl⟩
    · intro hbt
      have hmain : (s.setChecked target).2 =
          [.getElements s.Selector, .getAttribute e.id ("type"), .isSelected e.id,
           .click e.id] := by
        simp only [selection.setChecked, hs, hat, hb, if_pos hbt]
        cases e.Click <;> rfl
      exact ⟨hmain, by rw [hmain]; rfl⟩

/-- C4 witness: a checkbox in state `false` checked to `true` clicks once;
already in the target state clicks zero times; a non-checkbox fails. -/
theorem C4_check_uncheck_toggle_policy_witness :
    selOne.driver.GetElements selOne.Selector = .ok [elemA] ∧
    elemA.GetAttribute ("type") = .ok ("checkbox") ∧
    elemA.IsSelected = .ok false ∧
    clickCount (selOne.setChecked true).2 = 1 ∧
    clickCount (selOne.setChecked false).2 = 0 ∧
    selText.driver.GetElements selText.Selector = .ok [elemText] ∧
    elemText.GetAttribute ("type") = .ok ("text") ∧
    clickCount (selText.setChecked true).2 = 0 :=
  ⟨rfl, rfl, rfl,
   (((C4_check_uncheck_toggle_policy selOne elemA true rfl).2.2.2 rfl false rfl).2
     (by decide)).2,
   (((C4_check_uncheck_toggle_policy selOne elemA false rfl).2.2.2 rfl false rfl).1 rfl).2,
   rfl, rfl,
   (((C4_check_uncheck_toggle_policy selText elemText true rfl).2.2.1 ("text") rfl
     (by decide)).2)⟩

/-- C5: `Select(text)` resolves the rendered path with " option" appended
(its first and only resolution call), scans the resolved options in order,
clicks the first option whose text equals `text` and returns success
without touching later options, and fails naming both the text and the
path when no option matches. -/
theorem C5_select_scans_options (s : selection) (text : String) :
    (∀ err, s.driver.GetElements (s.Selector ++ " option") = .error err →
      s.Select text =
        (some ("failed to retrieve options for selector '" ++ s.Selector ++ "': " ++ err),
         [.getElements (s.Selector ++ " option")])) ∧
    (∀ opts, s.driver.GetElements (s.Selector ++ " option") = .ok opts →
      (s.Select text).2.head? = some (.getElements (s.Selector ++ " option")) ∧
      ((∀ e ∈ opts, ∃ t, e.GetText = .ok t ∧ t ≠ text) →
        s.Select text =
          (some ("no options with text \"" ++ text ++ "\" found for selector '" ++
             s.Selector ++ "'"),
           .getElements (s.Selector ++ " option") :: (opts.map fun e => .getText e.id))) ∧
      (∀ pre m post, opts = pre ++ m :: post →
        (∀ e ∈ pre, ∃ t, e.GetText = .ok t ∧ t ≠ text) →
        m.GetText = .ok text → m.Click = .ok () →
        s.Select text =
          (none, .getElements (s.Selector ++ " option") ::
            ((pre.map fun e => .getText e.id) ++ [.getText m.id, .click m.id])))) := by
  refine ⟨?_, ?_⟩
  · intro err herr
    simp [selection.Select, herr]
  · intro opts hok
    refine ⟨?_, ?_, ?_⟩
    · simp [selection.Select, hok]
    · intro hall
      simp only [selection.Select, hok, selectLoop_no_match s text opts hall]
    · intro pre m post hsplit hpre hm hc
      subst hsplit
      simp only [selection.Select, hok, selectLoop_first_match s text pre m post hpre hm hc]

/-- C5 witness: against options with texts ["A", "B", "B"], `Select("B")`
clicks the first "B" option (and never reads the third option's text),
and `Select("Z")` fails naming "Z" and the path. -/
theorem C5_select_scans_options_witness :
    selOpts.driver.GetElements (selOpts.Selector ++ " option") = .ok [optA, optB1, optB2] ∧
    selOpts.Select ("B") =
      (none, [.getElements (selOpts.Selector ++ " option"), .getText 10, .getText 11,
        .click 11]) ∧
    selOpts.Select ("Z") =
      (some ("no options with text \"" ++ "Z" ++ "\" found for selector '" ++
         selOpts.Selector ++ "'"),
       [.getElements (selOpts.Selector ++ " option"), .getText 10, .getText 11,
        .getText 12]) := by
  refine ⟨rfl, ?_, ?_⟩
  · have h := ((C5_select_scans_options selOpts ("B")).2 [optA, optB1, optB2] rfl).2.2
      [optA] optB1 [optB2] rfl ?_ rfl rfl
    · exact h
    · intro e he
      simp only [List.mem_singleton] at he
      subst he
      exact ⟨"A", rfl, by decide⟩
  · have h := ((C5_select_scans_options selOpts ("Z")).2 [optA, optB1, optB2] rfl).2.1 ?_
    · exact h
    · intro e he
      simp only [List.mem_cons, List.not_mem_nil, or_false] at he
      rcases he with rfl | rfl | rfl
      · exact ⟨"A", rfl, by decide⟩
      · exact ⟨"B", rfl, by decide⟩
      · exact ⟨"B", rfl, by decide⟩

/-- C6: after resolving exactly one element, `Fill` invokes `Clear` before
`Value`; when `Clear` fails it returns the wrapped error and the set-value
primitive is never attempted; on a successful `Clear` both primitives are
invoked exactly once, in that order. -/
theorem C6_fill_clears_before_setting_value (s : selection) (e : Element) (text : String)
    (h : s.driver.GetElements s.Selector = .ok [e]) :
    (∀ err, e.Clear = .error err →
      s.Fill text =
        (some ("failed to clear selector '" ++ s.Selector ++ "': " ++ err),
         [.getElements s.Selector, .clear e.id]) ∧
      (∀ v, Event.setValue e.id v ∉ (s.Fill text).2)) ∧
    (e.Clear = .ok () →
      s.Fill text = ((match e.Value text with
        | .error err =>
            some ("failed to enter text into selector '" ++ s.Selector ++ "': " ++ err)
        | .ok _ => none),
        [.getElements s.Selector, .clear e.id, .setValue e.id text])) := by
  have hs := getSingleElement_single s e h
  refine ⟨?_, ?_⟩
  · intro err hc
    have hmain : s.Fill text =
        (some ("failed to clear selector '" ++ s.Selector ++ "': " ++ err),
         [.getElements s.Selector, .clear e.id]) := by
      simp [selection.Fill, hs, hc]
    refine ⟨hmain, ?_⟩
    rw [hmain]
    intro v
    simp
  · intro hc
    simp only [selection.Fill, hs, hc]
    cases e.Value text <;> rfl

/-- C6 witness: a healthy element is cleared then written in order; an
element whose `Clear` fails never receives a set-value call. -/
theorem C6_fill_clears_before_setting_value_witness :
    selOne.driver.GetElements selOne.Selector = .ok [elemA] ∧
    elemA.Clear = .ok () ∧
    selOne.Fill ("x") =
      (none, [.getElements selOne.Selector, .clear 0, .setValue 0 ("x")]) ∧
    selClearFail.driver.GetElements selClearFail.Selector = .ok [elemClearFail] ∧
    elemClearFail.Clear = .error ("clear broke") ∧
    selClearFail.Fill ("x") =
      (some ("failed to clear selector '" ++ selClearFail.Selector ++ "': " ++ "clear broke"),
       [.getElements selClearFail.Selector, .clear 3]) :=
  ⟨rfl, rfl,
   (C6_fill_clears_before_setting_value selOne elemA ("x") rfl).2 rfl,
   rfl, rfl,
   ((C6_fill_clears_before_setting_value selClearFail elemClearFail ("x") rfl).1
     ("clear broke") rfl).1⟩

/-- C7: after resolving exactly one element, `DoubleClick` asks the driver
to move the pointer to that element with no offset point before asking for
the double-click; when the move fails it returns the wrapped error and the
driver double-click is never issued. -/
theorem C7_doubleclick_moves_pointer_first (s : selection) (e : Element)
    (h : s.driver.GetElements s.Selector = .ok [e]) :
    (∀ err, s.driver.MoveTo e none = .error err →
      s.DoubleClick =
        (some ("failed to move mouse to selector '" ++ s.Selector ++ "': " ++ err),
         [.getElements s.Selector, .moveTo e.id none]) ∧
      Event.doubleClick ∉ (s.DoubleClick).2) ∧
    (s.driver.MoveTo e none = .ok () →
      s.DoubleClick = ((match s.driver.DoubleClick with
        | .error err =>
            some ("failed to double-click on selector '" ++ s.Selector ++ "': " ++ err)
        | .ok _ => none),
        [.getElements s.Selector, .moveTo e.id none, .doubleClick])) := by
  have hs := getSingleElement_single s e h
  refine ⟨?_, ?_⟩
  · intro err hm
    have hmain : s.DoubleClick =
        (some ("failed to move mouse to selector '" ++ s.Selector ++ "': " ++ err),
         [.getElements s.Selector, .moveTo e.id none]) := by
      simp [selection.DoubleClick, hs, hm]
    refine ⟨hmain, ?_⟩
    rw [hmain]
    simp
  · intro hm
    simp only [selection.DoubleClick, hs, hm]
    cases s.driver.DoubleClick <;> rfl

/-- C7 witness: with a healthy driver the trace is move-to then
double-click; with a failing `MoveTo` no double-click is issued. -/
theorem C7_doubleclick_moves_pointer_first_witness :
    selOne.driver.GetElements selOne.Selector = .ok [elemA] ∧
    selOne.driver.MoveTo elemA none = .ok () ∧
    selOne.DoubleClick =
      (none, [.getElements selOne.Selector, .moveTo 0 none, .doubleClick]) ∧
    selMoveFail.driver.GetElements selMoveFail.Selector = .ok [elemA] ∧
    selMoveFail.driver.MoveTo elemA none = .error ("move broke") ∧
    selMoveFail.DoubleClick =
      (some ("failed to move mouse to selector '" ++ selMoveFail.Selector ++ "': " ++
         "move broke"),
       [.getElements selMoveFail.Selector, .moveTo 0 none]) :=
  ⟨rfl, rfl,
   (C7_doubleclick_moves_pointer_first selOne elemA rfl).2 rfl,
   rfl, rfl,
   ((C7_doubleclick_moves_pointer_first selMoveFail elemA rfl).1 ("move broke") rfl).1⟩

/-- C8: `Count()` returns the number of resolved handles with no error for
every k ≥ 0, and on a resolution failure returns an error whose message
names the rendered path and embeds the underlying cause. -/
theorem C8_count_returns_length (s : selection) :
    (∀ l, s.driver.GetElements s.Selector = .ok l →
      s.Count = ((l.length, none), [.getElements s.Selector])) ∧
    (∀ err, s.driver.GetElements s.Selector = .error err →
      s.Count =
        ((0, some ("failed to retrieve elements for selector '" ++ s.Selector ++
           "': " ++ err)),
         [.getElements s.Selector]) ∧
      containsPath s.Selector
        ("failed to retrieve elements for selector '" ++ s.Selector ++ "': " ++ err) ∧
      containsPath err
        ("failed to retrieve elements for selector '" ++ s.Selector ++ "': " ++ err)) := by
  refine ⟨?_, ?_⟩
  · intro l hl
    simp [selection.Count, hl]
  · intro err herr
    refine ⟨by simp [selection.Count, herr], containsPath_wrap3 _ _ _ _, ?_⟩
    exact ⟨"failed to retrieve elements for selector '" ++ s.Selector ++ "': ", "",
      by simp [String.append_assoc]⟩

/-- C8 witness: one resolved element gives count 1 and no error; zero
elements give count 0 and no error; a failing driver gives the wrapped
error. -/
theorem C8_count_returns_length_witness :
    selOne.driver.GetElements selOne.Selector = .ok [elemA] ∧
    selOne.Count = ((1, none), [.getElements selOne.Selector]) ∧
    selZero.driver.GetElements selZero.Selector = .ok [] ∧
    selZero.Count = ((0, none), [.getElements selZero.Selector]) ∧
    selErr.driver.GetElements selErr.Selector = .error ("transport broke") ∧
    selErr.Count =
      ((0, some ("failed to retrieve elements for selector '" ++ selErr.Selector ++
         "': " ++ "transport broke")),
       [.getElements selErr.Selector]) :=
  ⟨rfl, (C8_count_returns_length selOne).1 [elemA] rfl,
   rfl, (C8_count_returns_length selZero).1 [] rfl,
   rfl, ((C8_count_returns_length selErr).2 ("transport broke") rfl).1⟩

/-- C9: for every operation and every failure cause, the returned error
message contains the exact rendered selector path of the Selection. -/
theorem C9_errors_name_path (s : selection) :
    (∀ n msg tr, s.Count = ((n, some msg), tr) → containsPath s.Selector msg) ∧
    (∀ msg tr, s.Click = (some msg, tr) → containsPath s.Selector msg) ∧
    (∀ msg tr, s.DoubleClick = (some msg, tr) → containsPath s.Selector msg) ∧
    (∀ text msg tr, s.Fill text = (some msg, tr) → containsPath s.Selector msg) ∧
    (∀ v msg tr, s.Text = ((v, some msg), tr) → containsPath s.Selector msg) ∧
    (∀ a v msg tr, s.Attribute a = ((v, some msg), tr) → containsPath s.Selector msg) ∧
    (∀ p v msg tr, s.CSS p = ((v, some msg), tr) → containsPath s.Selector msg) ∧
    (∀ msg tr, s.Check = (some msg, tr) → containsPath s.Selector msg) ∧
    (∀ msg tr, s.Uncheck = (some msg, tr) → containsPath s.Selector msg) ∧
    (∀ v msg tr, s.Selected = ((v, some msg), tr) → containsPath s.Selector msg) ∧
    (∀ v msg tr, s.Visible = ((v, some msg), tr) → containsPath s.Selector msg) ∧
    (∀ text msg tr, s.Select text = (some msg, tr) → containsPath s.Selector msg) ∧
    (∀ msg tr, s.Submit = (some msg, tr) → containsPath s.Selector msg) := by
  refine ⟨?_, ?_, ?_, ?_, ?_, ?_, ?_, ?_, ?_, ?_, ?_, ?_, ?_⟩
  · intro n msg tr heq
    cases hge : s.driver.GetElements s.Selector with
    | error err =>
      simp only [selection.Count, hge, Prod.mk.injEq, Option.some.injEq] at heq
      exact heq.1.2 ▸ containsPath_wrap3 _ _ _ _
    | ok l =>
      simp only [selection.Count, hge, Prod.mk.injEq] at heq
      exact absurd heq.1.2 (by simp)
  · intro msg tr heq
    rcases getSingleElement_shape s with ⟨e, hs⟩ | ⟨cause, hs⟩
    · simp only [selection.Click, hs] at heq
      cases hc : e.Click with
      | error err =>
        simp only [hc, Prod.mk.injEq, Option.some.injEq] at heq
        exact heq.1 ▸ containsPath_wrap3 _ _ _ _
      | ok u =>
        simp only [hc, Prod.mk.injEq] at heq
        exact absurd heq.1 (by simp)
    · simp only [selection.Click, hs, Prod.mk.injEq, Option.some.injEq] at heq
      exact heq.1 ▸ containsPath_wrap3 _ _ _ _
  · intro msg tr heq
    rcases getSingleElement_shape s with ⟨e, hs⟩ | ⟨cause, hs⟩
    · simp only [selection.DoubleClick, hs] at heq
      cases hm : s.driver.MoveTo e none with
      | error err =>
        simp only [hm, Prod.mk.injEq, Option.some.injEq] at heq
        exact heq.1 ▸ containsPath_wrap3 _ _ _ _
      | ok u =>
        simp only [hm] at heq
        cases hd : s.driver.DoubleClick with
        | error err =>
          simp only [hd, Prod.mk.injEq, Option.some.injEq] at heq
          exact heq.1 ▸ containsPath_wrap3 _ _ _ _
        | ok u2 =>
          simp only [hd, Prod.mk.injEq] at heq
          exact absurd heq.1 (by simp)
    · simp only [selection.DoubleClick, hs, Prod.mk.injEq, Option.some.injEq] at heq
      exact heq.1 ▸ containsPath_wrap3 _ _ _ _
  · intro text msg tr heq
    rcases getSingleElement_shape s with ⟨e, hs⟩ | ⟨cause, hs⟩
    · simp only [selection.Fill, hs] at heq
      cases hc : e.Clear with
      | error err =>
        simp only [hc, Prod.mk.injEq, Option.some.injEq] at heq
        exact heq.1 ▸ containsPath_wrap3 _ _ _ _
      | ok u =>
        simp only [hc] at heq
        cases hv : e.Value text with
        | error err =>
          simp only [hv, Prod.mk.injEq, Option.some.injEq] at heq
          exact heq.1 ▸ containsPath_wrap3 _ _ _ _
        | ok u2 =>
          simp only [hv, Prod.mk.injEq] at heq
          exact absurd heq.1 (by simp)
    · simp only [selection.Fill, hs, Prod.mk.injEq, Option.some.injEq] at heq
      exact heq.1 ▸ containsPath_wrap3 _ _ _ _
  · intro v msg tr heq
    rcases getSingleElement_shape s with ⟨e, hs⟩ | ⟨cause, hs⟩
    · simp only [selection.Text, hs] at heq
      cases hg : e.GetText with
      | error err =>
        simp only [hg, Prod.mk.injEq, Option.some.injEq] at heq
        exact heq.1.2 ▸ containsPath_wrap3 _ _ _ _
      | ok t =>
        simp only [hg, Prod.mk.injEq] at heq
        exact absurd heq.1.2 (by simp)
    · simp only [selection.Text, hs, Prod.mk.injEq, Option.some.injEq] at heq
      exact heq.1.2 ▸ containsPath_wrap3 _ _ _ _
  · intro a v msg tr heq
    rcases getSingleElement_shape s with ⟨e, hs⟩ | ⟨cause, hs⟩
    · simp only [selection.Attribute, hs] at heq
      cases hg : e.GetAttribute a with
      | error err =>
        simp only [hg, Prod.mk.injEq, Option.some.injEq] at heq
        exact heq.1.2 ▸ containsPath_wrap3 _ _ _ _
      | ok t =>
        simp only [hg, Prod.mk.injEq] at heq
        exact absurd heq.1.2 (by simp)
    · simp only [selection.Attribute, hs, Prod.mk.injEq, Option.some.injEq] at heq
      exact heq.1.2 ▸ containsPath_wrap3 _ _ _ _
  · intro p v msg tr heq
    rcases getSingleElement_shape s with ⟨e, hs⟩ | ⟨cause, hs⟩
    · simp only [selection.CSS, hs] at heq
      cases hg : e.GetCSS p with
      | error err =>
        simp only [hg, Prod.mk.injEq, Option.some.injEq] at heq
        exact heq.1.2 ▸ containsPath_wrap3 _ _ _ _
      | ok t =>
        simp only [hg, Prod.mk.injEq] at heq
        exact absurd heq.1.2 (by simp)
    · simp only [selection.CSS, hs, Prod.mk.injEq, Option.some.injEq] at heq
      exact heq.1.2 ▸ containsPath_wrap3 _ _ _ _
  · intro msg tr heq
    exact setChecked_err_contains s true msg tr heq
  · intro msg tr heq
    exact setChecked_err_contains s false msg tr heq
  · intro v msg tr heq
    rcases getSingleElement_shape s with ⟨e, hs⟩ | ⟨cause, hs⟩
    · simp only [selection.Selected, hs] at heq
      cases hg : e.IsSelected with
      | error err =>
        simp only [hg, Prod.mk.injEq, Option.some.injEq] at heq
        exact heq.1.2 ▸ containsPath_wrap3 _ _ _ _
      | ok b =>
        simp only [hg, Prod.mk.injEq] at heq
        exact absurd heq.1.2 (by simp)
    · simp only [selection.Selected, hs, Prod.mk.injEq, Option.some.injEq] at heq
      exact heq.1.2 ▸ containsPath_wrap3 _ _ _ _
  · intro v msg tr heq
    rcases getSingleElement_shape s with ⟨e, hs⟩ | ⟨cause, hs⟩
    · simp only [selection.Visible, hs] at heq
      cases hg : e.IsDisplayed with
      | error err =>
        simp only [hg, Prod.mk.injEq, Option.some.injEq] at heq
        exact heq.1.2 ▸ containsPath_wrap3 _ _ _ _
      | ok b =>
        simp only [hg, Prod.mk.injEq] at heq
        exact absurd heq.1.2 (by simp)
    · simp only [selection.Visible, hs, Prod.mk.injEq, Option.some.injEq] at heq
      exact heq.1.2 ▸ containsPath_wrap3 _ _ _ _
  · intro text msg tr heq
    simp only [selection.Select] at heq
    cases hge : s.driver.GetElements (s.Selector ++ " option") with
    | error err =>
      simp only [hge, Prod.mk.injEq, Option.some.injEq] at heq
      exact heq.1 ▸ containsPath_wrap3 _ _ _ _
    | ok opts =>
      simp only [hge, Prod.mk.injEq] at heq
      exact selectLoop_err_contains s text opts msg (selectLoop s text opts).2
        (Prod.ext heq.1 rfl)
  · intro msg tr heq
    rcases getSingleElement_shape s with ⟨e, hs⟩ | ⟨cause, hs⟩
    · simp only [selection.Submit, hs] at heq
      cases hc : e.Submit with
      | error err =>
        simp only [hc, Prod.mk.injEq, Option.some.injEq] at heq
        exact heq.1 ▸ containsPath_wrap3 _ _ _ _
      | ok u =>
        simp only [hc, Prod.mk.injEq] at heq
        exact absurd heq.1 (by simp)
    · simp only [selection.Submit, hs, Prod.mk.injEq, Option.some.injEq] at heq
      exact heq.1 ▸ containsPath_wrap3 _ _ _ _

/-- C9 witness: a concrete failing Click whose message embeds the path. -/
theorem C9_errors_name_path_witness :
    selZero.Click =
      (some ("failed to retrieve element with selector '" ++ selZero.Selector ++ "': " ++
        "no element found"), [.getElements selZero.Selector]) ∧
    containsPath selZero.Selector
      ("failed to retrieve element with selector '" ++ selZero.Selector ++ "': " ++
        "no element found") :=
  ⟨rfl, (C9_errors_name_path selZero).2.1
    ("failed to retrieve element with selector '" ++ selZero.Selector ++ "': " ++
      "no element found")
    [.getElements selZero.Selector] rfl⟩

/-- C10: every value-returning operation returns the zero value of its
result type alongside any error: 0 for Count, "" for Text/Attribute/CSS,
false for Selected/Visible. -/
theorem C10_zero_value_on_error (s : selection) :
    (∀ n msg tr, s.Count = ((n, some msg), tr) → n = 0) ∧
    (∀ v msg tr, s.Text = ((v, some msg), tr) → v = "") ∧
    (∀ a v msg tr, s.Attribute a = ((v, some msg), tr) → v = "") ∧
    (∀ p v msg tr, s.CSS p = ((v, some msg), tr) → v = "") ∧
    (∀ v msg tr, s.Selected = ((v, some msg), tr) → v = false) ∧
    (∀ v msg tr, s.Visible = ((v, some msg), tr) → v = false) := by
  refine ⟨?_, ?_, ?_, ?_, ?_, ?_⟩
  · intro n msg tr heq
    cases hge : s.driver.GetElements s.Selector with
    | error err =>
      simp only [selection.Count, hge, Prod.mk.injEq, Option.some.injEq] at heq
      exact heq.1.1.symm
    | ok l =>
      simp only [selection.Count, hge, Prod.mk.injEq] at heq
      exact absurd heq.1.2 (by simp)
  · intro v msg tr heq
    rcases getSingleElement_shape s with ⟨e, hs⟩ | ⟨cause, hs⟩
    · simp only [selection.Text, hs] at heq
      cases hg : e.GetText with
      | error err =>
        simp only [hg, Prod.mk.injEq, Option.some.injEq] at heq
        exact heq.1.1.symm
      | ok t =>
        simp only [hg, Prod.mk.injEq] at heq
        exact absurd heq.1.2 (by simp)
    · simp only [selection.Text, hs, Prod.mk.injEq, Option.some.injEq] at heq
      exact heq.1.1.symm
  · intro a v msg tr heq
    rcases getSingleElement_shape s with ⟨e, hs⟩ | ⟨cause, hs⟩
    · simp only [selection.Attribute, hs] at heq
      cases hg : e.GetAttribute a with
      | error err =>
        simp only [hg, Prod.mk.injEq, Option.some.injEq] at heq
        exact heq.1.1.symm
      | ok t =>
        simp only [hg, Prod.mk.injEq] at heq
        exact absurd heq.1.2 (by simp)
    · simp only [selection.Attribute, hs, Prod.mk.injEq, Option.some.injEq] at heq
      exact heq.1.1.symm
  · intro p v msg tr heq
    rcases getSingleElement_shape s with ⟨e, hs⟩ | ⟨cause, hs⟩
    · simp only [selection.CSS, hs] at heq
      cases hg : e.GetCSS p with
      | error err =>
        simp only [hg, Prod.mk.injEq, Option.some.injEq] at heq
        exact heq.1.1.symm
      | ok t =>
        simp only [hg, Prod.mk.injEq] at heq
        exact absurd heq.1.2 (by simp)
    · simp only [selection.CSS, hs, Prod.mk.injEq, Option.some.injEq] at heq
      exact heq.1.1.symm
  · intro v msg tr heq
    rcases getSingleElement_shape s with ⟨e, hs⟩ | ⟨cause, hs⟩
    · simp only [selection.Selected, hs] at heq
      cases hg : e.IsSelected with
      | error err =>
        simp only [hg, Prod.mk.injEq, Option.some.injEq] at heq
        exact heq.1.1.symm
      | ok b =>
        simp only [hg, Prod.mk.injEq] at heq
        exact absurd heq.1.2 (by simp)
    · simp only [selection.Selected, hs, Prod.mk.injEq, Option.some.injEq] at heq
      exact heq.1.1.symm
  · intro v msg tr heq
    rcases getSingleElement_shape s with ⟨e, hs⟩ | ⟨cause, hs⟩
    · simp only [selection.Visible, hs] at heq
      cases hg : e.IsDisplayed with
      | error err =>
        simp only [hg, Prod.mk.injEq, Option.some.injEq] at heq
        exact heq.1.1.symm
      | ok b =>
        simp only [hg, Prod.mk.injEq] at heq
        exact absurd heq.1.2 (by simp)
    · simp only [selection.Visible, hs, Prod.mk.injEq, Option.some.injEq] at heq
      exact heq.1.1.symm

/-- C10 witness: concrete failing Count, Text and Selected calls return 0,
"" and false. -/
theorem C10_zero_value_on_error_witness :
    selErr.Count =
      ((0, some ("failed to retrieve elements for selector '" ++ selErr.Selector ++
        "': " ++ "transport broke")), [.getElements selErr.Selector]) ∧
    (0 : Nat) = 0 ∧
    selZero.Text =
      (("", some ("failed to retrieve element with selector '" ++ selZero.Selector ++
        "': " ++ "no element found")), [.getElements selZero.Selector]) ∧
    ("" : String) = "" ∧
    selZero.Selected =
      ((false, some ("failed to retrieve element with selector '" ++ selZero.Selector ++
        "': " ++ "no element found")), [.getElements selZero.Selector]) ∧
    false = false :=
  ⟨rfl,
   (C10_zero_value_on_error selErr).1 0
     ("failed to retrieve elements for selector '" ++ selErr.Selector ++ "': " ++
       "transport broke") [.getElements selErr.Selector] rfl,
   rfl,
   (C10_zero_value_on_error selZero).2.1 ""
     ("failed to retrieve element with selector '" ++ selZero.Selector ++ "': " ++
       "no element found") [.getElements selZero.Selector] rfl,
   rfl,
   (C10_zero_value_on_error selZero).2.2.2.2.1 false
     ("failed to retrieve element with selector '" ++ selZero.Selector ++ "': " ++
       "no element found") [.getElements selZero.Selector] rfl⟩

end Agouti
